import Mathlib

/-!
Verification of the access-control and credential-lifecycle engine of the
Login-_V2 repository. The definitions below are a shallow embedding of the
TypeScript source: the access decision functions of `src/App.tsx`
(second document: permission helpers), the `changePassword` flow of the
auth context, the reset-password submit handler, and the `admin-users`
edge-function guard. External collaborators (identity provider, directory
store) are modelled by explicit result inputs; effects are recorded as
explicit traces.
-/

/-- Mirrors the `roles` join object `\x7b name, description \x7d` attached to a user row. -/
structure RoleInfo where
  name : String
  description : String
deriving DecidableEq, Repr

/-- Mirrors the `User` interface of `src/types/auth` (second document of
`src/src/types/database.ts`): directory row plus optional joined role.
`sub_menu_access` is a `Record<string, string[]>`, embedded as an
association list. -/
structure User where
  id : String
  email : String
  full_name : String
  role_id : String
  menu_access : List String
  sub_menu_access : List (String × List String)
  component_access : List String
  is_active : Bool
  needs_password_reset : Option Bool
  roles : Option RoleInfo
deriving DecidableEq, Repr

/-- `user.roles?.name` -/
def roleNameOf (u : User) : Option String :=
  u.roles.map RoleInfo.name

/-- Record lookup `m[k]` on a `Record<string, string[]>`, `none` when the key is absent. -/
def lookupGrants (m : List (String × List String)) (k : String) : Option (List String) :=
  (m.find? (fun p => p.1 == k)).map Prod.snd

/-- `hasMenuAccess` from `src/App.tsx` lines 101-104. -/
def hasMenuAccess (u? : Option User) (menuId : String) : Bool :=
  match u? with
  | none => false
  | some user =>
    if user.is_active = false then false
    else user.menu_access.contains menuId

/-- `hasSubMenuAccess` from `src/App.tsx` lines 106-109:
`user.sub_menu_access[menuId]?.includes(subMenuId) || false`. -/
def hasSubMenuAccess (u? : Option User) (menuId subMenuId : String) : Bool :=
  match u? with
  | none => false
  | some user =>
    if user.is_active = false then false
    else
      match lookupGrants user.sub_menu_access menuId with
      | none => false
      | some grants => grants.contains subMenuId

/-- `hasComponentAccess` from `src/App.tsx` lines 111-114. -/
def hasComponentAccess (u? : Option User) (componentId : String) : Bool :=
  match u? with
  | none => false
  | some user =>
    if user.is_active = false then false
    else user.component_access.contains componentId

/-- `hasPermission` from `src/App.tsx` lines 116-144: inactive guard, admin
short-circuit, then the hard-coded resource switch. -/
def hasPermission (u? : Option User) (resource action : String) : Bool :=
  match u? with
  | none => false
  | some user =>
    if user.is_active = false then false
    else if roleNameOf user = some "admin" then true
    else
      let rn := (roleNameOf user).getD ""
      if resource = "admin" then decide (roleNameOf user = some "admin")
      else if resource = "dashboard" then ["admin", "member", "viewer"].contains rn
      else if resource = "users" then decide (roleNameOf user = some "admin")
      else if resource = "reports" then
        if action = "view" then ["admin", "member", "viewer"].contains rn
        else if action = "export" then ["admin", "member"].contains rn
        else false
      else if resource = "transactions" then
        if action = "create" then ["admin", "member"].contains rn
        else if action = "approve" then decide (roleNameOf user = some "admin")
        else false
      else false

/-- The explicit (resource, action) → allowed-role-set reading of the
switch in `hasPermission`: `some` exactly on the pairs the switch decides
by a role-set test, `none` on the pairs it denies unconditionally. -/
def ruleTable (resource action : String) : Option (List String) :=
  if resource = "admin" then some ["admin"]
  else if resource = "dashboard" then some ["admin", "member", "viewer"]
  else if resource = "users" then some ["admin"]
  else if resource = "reports" then
    if action = "view" then some ["admin", "member", "viewer"]
    else if action = "export" then some ["admin", "member"]
    else none
  else if resource = "transactions" then
    if action = "create" then some ["admin", "member"]
    else if action = "approve" then some ["admin"]
    else none
  else none

/-- Sample inactive user carrying the admin role and full grants. -/
def inactiveAdminUser : User :=
  { id := "u1", email := "admin@example.com", full_name := "Ada Admin",
    role_id := "r1", menu_access := ["m1"], sub_menu_access := [("m1", ["s1"])],
    component_access := ["c1"], is_active := false,
    needs_password_reset := some false,
    roles := some { name := "admin", description := "Administrator" } }

/-- Sample active admin whose grant sets are small. -/
def activeAdminUser : User :=
  { id := "u2", email := "root@example.com", full_name := "Rae Root",
    role_id := "r1", menu_access := ["m1"], sub_menu_access := [("m1", ["s1"])],
    component_access := ["c1"], is_active := true,
    needs_password_reset := some false,
    roles := some { name := "admin", description := "Administrator" } }

/-- Sample active member. -/
def activeMemberUser : User :=
  { id := "u3", email := "mia@example.com", full_name := "Mia Member",
    role_id := "r2", menu_access := ["m1"], sub_menu_access := [("m1", ["s1"])],
    component_access := ["c1"], is_active := true,
    needs_password_reset := some false,
    roles := some { name := "member", description := "Member" } }

/-- Claim C1: for every inactive principal, all four access decisions —
`hasPermission`, `hasMenuAccess`, `hasSubMenuAccess`, `hasComponentAccess` —
return false, for all roles, resources, actions and grant sets. -/
theorem inactive_denies_all (u : User)
    (resource action menuId subMenuId componentId : String)
    (h : u.is_active = false) :
    hasPermission (some u) resource action = false ∧
    hasMenuAccess (some u) menuId = false ∧
    hasSubMenuAccess (some u) menuId subMenuId = false ∧
    hasComponentAccess (some u) componentId = false := by
  refine ⟨?_, ?_, ?_, ?_⟩ <;>
    simp [hasPermission, hasMenuAccess, hasSubMenuAccess, hasComponentAccess, h]

/-- Claim C1 witness: the concrete inactive admin is denied everywhere. -/
theorem inactive_denies_all_witness :
    inactiveAdminUser.is_active = false ∧
    (hasPermission (some inactiveAdminUser) "users" "read" = false ∧
     hasMenuAccess (some inactiveAdminUser) "m1" = false ∧
     hasSubMenuAccess (some inactiveAdminUser) "m1" "s1" = false ∧
     hasComponentAccess (some inactiveAdminUser) "c1" = false) :=
  ⟨rfl, inactive_denies_all inactiveAdminUser "users" "read" "m1" "s1" "c1" rfl⟩

/-- Claim C2 counterexample: a principal whose role name is "admin" but who
is inactive is denied, so the admin allow is not unconditional on the
principal. -/
theorem admin_inactive_counterexample :
    roleNameOf inactiveAdminUser = some "admin" ∧
    hasPermission (some inactiveAdminUser) "users" "read" = false :=
  ⟨rfl, rfl⟩

/-- Claim C2 (amended): for every active principal whose role name is
"admin", `hasPermission` returns true for every resource and action. -/
theorem active_admin_has_all_permissions (u : User) (resource action : String)
    (hactive : u.is_active = true) (hrole : roleNameOf u = some "admin") :
    hasPermission (some u) resource action = true := by
  simp [hasPermission, hactive, hrole]

/-- Claim C2 witness: a concrete active admin is allowed on an arbitrary pair. -/
theorem active_admin_has_all_permissions_witness :
    activeAdminUser.is_active = true ∧
    roleNameOf activeAdminUser = some "admin" ∧
    hasPermission (some activeAdminUser) "reports" "delete" = true :=
  ⟨rfl, rfl, active_admin_has_all_permissions activeAdminUser "reports" "delete" rfl rfl⟩

/-- Claim C6: every (resource, action) pair absent from the rule table is
denied for every principal whose role is not "admin"; the function is total
and returns false rather than raising. -/
theorem absent_rule_denies (u : User) (resource action : String)
    (htab : ruleTable resource action = none)
    (hrole : roleNameOf u ≠ some "admin") :
    hasPermission (some u) resource action = false := by
  unfold ruleTable at htab
  unfold hasPermission
  split_ifs at htab ⊢ <;> simp_all

/-- Claim C6 witness: unknown action on the known resource "reports" is
denied for an active member. -/
theorem absent_rule_denies_witness :
    ruleTable "reports" "delete" = none ∧
    roleNameOf activeMemberUser ≠ some "admin" ∧
    hasPermission (some activeMemberUser) "reports" "delete" = false :=
  ⟨rfl, by decide, absent_rule_denies activeMemberUser "reports" "delete" rfl (by decide)⟩

/-- Claim C9: for any principal the menu, sub-menu and component checks are
decided solely by membership of the queried id in the corresponding grant
set (gated by the active flag), and are invariant under changing the
principal role; moreover a concrete principal passes `hasPermission` while
failing `hasMenuAccess`. -/
theorem grant_checks_independent_of_role :
    (∀ (u : User) (ro : Option RoleInfo) (m s c : String),
      hasMenuAccess (some u) m = (u.is_active && u.menu_access.contains m) ∧
      hasSubMenuAccess (some u) m s =
        (u.is_active && ((lookupGrants u.sub_menu_access m).getD []).contains s) ∧
      hasComponentAccess (some u) c = (u.is_active && u.component_access.contains c) ∧
      hasMenuAccess (some { u with roles := ro }) m = hasMenuAccess (some u) m ∧
      hasSubMenuAccess (some { u with roles := ro }) m s = hasSubMenuAccess (some u) m s ∧
      hasComponentAccess (some { u with roles := ro }) c = hasComponentAccess (some u) c) ∧
    (hasPermission (some activeAdminUser) "users" "read" = true ∧
     hasMenuAccess (some activeAdminUser) "hidden-menu" = false) := by
  refine ⟨fun u ro m s c => ⟨?_, ?_, ?_, rfl, rfl, rfl⟩, rfl, rfl⟩
  · cases hu : u.is_active <;> simp [hasMenuAccess, hu]
  · cases hu : u.is_active <;>
      cases hg : lookupGrants u.sub_menu_access m <;>
        simp [hasSubMenuAccess, hu, hg]
  · cases hu : u.is_active <;> simp [hasComponentAccess, hu]

/-- Claim C10: for an active principal, a sub-menu query whose menu id has
no entry in the `sub_menu_access` map returns false: the lookup on a
missing key is total and coerced to false. -/
theorem submenu_missing_key_false (u : User) (m s : String)
    (hact : u.is_active = true)
    (hmiss : lookupGrants u.sub_menu_access m = none) :
    hasSubMenuAccess (some u) m s = false := by
  simp [hasSubMenuAccess, hact, hmiss]

/-- Claim C10 witness: the active member has no entry for menu "m2". -/
theorem submenu_missing_key_false_witness :
    activeMemberUser.is_active = true ∧
    lookupGrants activeMemberUser.sub_menu_access "m2" = none ∧
    hasSubMenuAccess (some activeMemberUser) "m2" "s9" = false :=
  ⟨rfl, rfl, submenu_missing_key_false activeMemberUser "m2" "s9" rfl rfl⟩

/-!
Edge function `supabase/functions/admin-users/index.ts`. Identity-provider
and directory-store calls are modelled by explicit result inputs; the
attempted calls are recorded in an effect trace, and the handler value is
the pair (HTTP status, trace).
-/

/-- Row returned by the guard query `select role_id, roles(name)` on `users`. -/
structure AdminRow where
  role_id : String
  roles : Option RoleInfo
deriving DecidableEq, Repr

/-- `userData.roles?.name` in the guard condition. -/
def roleNameOfRow (row : AdminRow) : Option String :=
  row.roles.map RoleInfo.name

/-- Outcomes of the authentication steps of the request: the header, the
`auth.getUser(token)` call, and the guard role-lookup query. -/
structure GuardEnv where
  authHeader : Option String
  authError : Bool
  authUser : Option String
  userError : Bool
  userData : Option AdminRow
deriving DecidableEq, Repr

/-- Outcomes of the provider and store calls a dispatched operation makes. -/
structure OpEnv where
  listUsersRes : Except String Unit
  createAuthUserRes : Except String String
  insertProfileRes : Except String Unit
  updateProfileRes : Except String Unit
  deleteAuthUserRes : Except String Unit
  generateLinkRes : Except String Unit
  bodyNeedsPasswordReset : Bool
  targetUserId : String
deriving Repr

/-- Provider and store calls the handler actually performs, in order. -/
inductive Effect
  | listUsers
  | createAuthUser
  | insertProfile
  | deleteAuthUser (id : String)
  | updateProfile (id : String)
  | generateLink
deriving DecidableEq, Repr

inductive Method
  | OPTIONS
  | GET
  | POST
  | PUT
  | DELETE
deriving DecidableEq, Repr

/-- The per-method dispatch of `admin-users/index.ts` lines 64-182, reached
only after the guard passed: GET list, POST create (with rollback of the
identity record when the profile insert fails), PUT update, DELETE. -/
def dispatchAdmin (method : Method) (ops : OpEnv) : Nat × List Effect :=
  match method with
  | .GET =>
    match ops.listUsersRes with
    | .error _ => (500, [.listUsers])
    | .ok _ => (200, [.listUsers])
  | .POST =>
    match ops.createAuthUserRes with
    | .error _ => (400, [.createAuthUser])
    | .ok newId =>
      match ops.insertProfileRes with
      | .error _ => (400, [.createAuthUser, .insertProfile, .deleteAuthUser newId])
      | .ok _ => (201, [.createAuthUser, .insertProfile, .generateLink])
  | .PUT =>
    match ops.updateProfileRes with
    | .error _ => (400, [.updateProfile ops.targetUserId])
    | .ok _ =>
      if ops.bodyNeedsPasswordReset then
        (200, [.updateProfile ops.targetUserId, .generateLink])
      else (200, [.updateProfile ops.targetUserId])
  | .DELETE =>
    match ops.deleteAuthUserRes with
    | .error _ => (400, [.deleteAuthUser ops.targetUserId])
    | .ok _ => (200, [.deleteAuthUser ops.targetUserId])
  | .OPTIONS => (405, [])

/-- The full request handler of `admin-users/index.ts` lines 21-187:
OPTIONS preflight, missing-header 401, invalid-token 401, guard 403 when
the role lookup errs, returns no row, or resolves to a non-admin role, and
only then the dispatch. -/
def handleAdminUsers (method : Method) (env : GuardEnv) (ops : OpEnv) :
    Nat × List Effect :=
  if method = .OPTIONS then (200, [])
  else
    match env.authHeader with
    | none => (401, [])
    | some _ =>
      if env.authError then (401, [])
      else
        match env.authUser with
        | none => (401, [])
        | some _ =>
          if env.userError then (403, [])
          else
            match env.userData with
            | none => (403, [])
            | some row =>
              if roleNameOfRow row ≠ some "admin" then (403, [])
              else dispatchAdmin method ops

/-- Sample guard environment: authenticated caller, role lookup returns no row. -/
def envLookupMissing : GuardEnv :=
  { authHeader := some "Bearer tok", authError := false, authUser := some "u9",
    userError := false, userData := none }

/-- Sample guard environment: authenticated admin caller. -/
def envAdminCaller : GuardEnv :=
  { authHeader := some "Bearer tok", authError := false, authUser := some "u2",
    userError := false,
    userData := some { role_id := "r1",
                       roles := some { name := "admin", description := "Administrator" } } }

/-- Sample operation environment where the profile insert fails after the
identity-provider create succeeded. -/
def opsInsertFails : OpEnv :=
  { listUsersRes := .ok (), createAuthUserRes := .ok "new-id",
    insertProfileRes := .error "duplicate key", updateProfileRes := .ok (),
    deleteAuthUserRes := .ok (), generateLinkRes := .ok (),
    bodyNeedsPasswordReset := false, targetUserId := "t1" }

/-- Claim C5: when the bearer credential authenticates but the role lookup
fails — query error, missing directory row, or role not resolvable — the
guard answers 403 with an empty effect trace: never 500 and no dispatch. -/
theorem guard_role_lookup_fails_403 (method : Method) (env : GuardEnv) (ops : OpEnv)
    (hm : method ≠ Method.OPTIONS)
    (hdr : env.authHeader ≠ none)
    (hauth : env.authError = false)
    (huser : env.authUser ≠ none)
    (hlook : env.userError = true ∨ env.userData = none ∨
      ∃ row, env.userData = some row ∧ row.roles = none) :
    handleAdminUsers method env ops = (403, []) := by
  unfold handleAdminUsers
  rw [if_neg hm]
  cases hh : env.authHeader with
  | none => exact absurd hh hdr
  | some h =>
    rw [hauth]
    cases hu : env.authUser with
    | none => exact absurd hu huser
    | some uid =>
      simp only [Bool.false_eq_true, if_false]
      rcases hlook with herr | hnone | ⟨row, hrow, hroles⟩
      · rw [herr]
        simp
      · rw [hnone]
        simp [Bool.false_eq_true]
      · rw [hrow]
        simp [roleNameOfRow, hroles, Bool.false_eq_true]

/-- Claim C5 witness: concrete authenticated request whose role lookup
returns no row is rejected with 403 and no dispatched effect. -/
theorem guard_role_lookup_fails_403_witness :
    handleAdminUsers Method.GET envLookupMissing opsInsertFails = (403, []) :=
  guard_role_lookup_fails_403 Method.GET envLookupMissing opsInsertFails
    (by decide) (by decide) rfl (by decide) (Or.inr (Or.inl rfl))

/-- Claim C7: in the create-user operation, when identity provisioning
succeeds and the directory insert fails, the handler deprovisions the
just-created identity record (its delete appears in the trace, after the
insert attempt) and returns 400. -/
theorem create_rollback_on_profile_failure (env : GuardEnv) (ops : OpEnv)
    (newId e : String)
    (hdr : env.authHeader ≠ none)
    (hauth : env.authError = false)
    (huser : env.authUser ≠ none)
    (hue : env.userError = false)
    (hrow : ∃ row, env.userData = some row ∧ roleNameOfRow row = some "admin")
    (hcreate : ops.createAuthUserRes = Except.ok newId)
    (hinsert : ops.insertProfileRes = Except.error e) :
    handleAdminUsers Method.POST env ops =
      (400, [Effect.createAuthUser, Effect.insertProfile, Effect.deleteAuthUser newId]) := by
  obtain ⟨row, hrowEq, hname⟩ := hrow
  unfold handleAdminUsers
  rw [if_neg (by decide : ¬(Method.POST = Method.OPTIONS))]
  cases hh : env.authHeader with
  | none => exact absurd hh hdr
  | some h =>
    rw [hauth]
    cases hu : env.authUser with
    | none => exact absurd hu huser
    | some uid =>
      simp only [Bool.false_eq_true, if_false]
      rw [hue]
      simp only [Bool.false_eq_true, if_false]
      rw [hrowEq]
      simp only [hname, ne_eq, not_true_eq_false, if_false, ite_false]
      unfold dispatchAdmin
      rw [hcreate, hinsert]

/-- Claim C7 witness: concrete admin-authenticated POST where the insert
fails rolls back the identity record and returns 400. -/
theorem create_rollback_on_profile_failure_witness :
    handleAdminUsers Method.POST envAdminCaller opsInsertFails =
      (400, [Effect.createAuthUser, Effect.insertProfile,
             Effect.deleteAuthUser "new-id"]) :=
  create_rollback_on_profile_failure envAdminCaller opsInsertFails "new-id"
    "duplicate key" (by decide) rfl (by decide) rfl
    ⟨{ role_id := "r1", roles := some { name := "admin", description := "Administrator" } },
      rfl, rfl⟩ rfl rfl

/-!
`changePassword` from the auth context (third document of
`src/src/types/database.ts`, lines 311-368) and the reset-page submit
handler `handleSubmit` (`src/unnamed/part_000`, lines 73-129). The two
provider calls — setting the credential and clearing the
`needs_password_reset` row flag — are modelled by explicit results, and
the mutations actually applied to stored credential state are traced.
-/

/-- A stored-state mutation applied by the credential update flow. -/
inductive Mutation
  | credentialSet
  | flagCleared
deriving DecidableEq, Repr

/-- Outcomes of the two calls `changePassword` makes: the credential update
(`auth.updateUser` or `authApi.updatePassword`) and the `users` table
update clearing `needs_password_reset`. `resultHasUserId` mirrors the
`result?.user?.id` guard before the flag update. -/
structure CPEnv where
  setCredentialRes : Except String Unit
  flagUpdateRes : Except String Unit
  resultHasUserId : Bool
deriving Repr

/-- `changePassword`: sets the credential, then — only when
`clearNeedsPasswordReset` and the result carries a user id — updates the
row flag; the first failure is rethrown to the caller unchanged. The value
is the outcome the caller observes paired with the mutations applied. -/
def changePassword (env : CPEnv) (clearNeedsPasswordReset : Bool) :
    Except String Unit × List Mutation :=
  match env.setCredentialRes with
  | .error m => (.error m, [])
  | .ok _ =>
    if clearNeedsPasswordReset && env.resultHasUserId then
      match env.flagUpdateRes with
      | .error m => (.error m, [.credentialSet])
      | .ok _ => (.ok (), [.credentialSet, .flagCleared])
    else (.ok (), [.credentialSet])

/-- Claim C3 counterexample: when the flag update fails after the
credential was set, the caller receives the raw store error — the very
same value observed when the credential update itself fails with that
message — not a distinct inconsistent-state error. -/
theorem change_password_error_indistinct :
    (changePassword ⟨Except.ok (), Except.error "Database error", true⟩ true).1 =
      Except.error "Database error" ∧
    (changePassword ⟨Except.ok (), Except.error "Database error", true⟩ true).1 =
      (changePassword ⟨Except.error "Database error", Except.ok (), true⟩ true).1 ∧
    (changePassword ⟨Except.ok (), Except.error "Database error", true⟩ true).2 =
      [Mutation.credentialSet] :=
  ⟨rfl, rfl, rfl⟩

/-- Claim C3 (amended): when setting the new password succeeds but clearing
the `needsPasswordReset` flag fails, `changePassword` never reports
success — it propagates the flag-update failure to the caller — but the
error is the underlying store error, not a distinct inconsistent-state
error. -/
theorem change_password_flag_failure_not_success (m : String) :
    (changePassword ⟨Except.ok (), Except.error m, true⟩ true).1 = Except.error m ∧
    (changePassword ⟨Except.ok (), Except.error m, true⟩ true).1 ≠ Except.ok () := by
  exact ⟨rfl, by simp [changePassword]⟩

/-- State observed by the reset page after a submit: the feedback message,
the success flag, and the stored-state mutations that happened. -/
structure SubmitOutcome where
  message : Option String
  isSuccess : Bool
  mutations : List Mutation
deriving DecidableEq, Repr

/-- `a == b` test on character lists for the leading segment. -/
def leadSegEq : List Char → List Char → Bool
  | [], _ => true
  | _ :: _, [] => false
  | a :: as, b :: bs => a == b && leadSegEq as bs

/-- JavaScript `String.prototype.includes`: substring containment. -/
def containsSubList (s pattern : List Char) : Bool :=
  match s with
  | [] => pattern.isEmpty
  | c :: tail => leadSegEq pattern (c :: tail) || containsSubList tail pattern

/-- `m.includes(p)` on strings. -/
def containsSub (m p : String) : Bool :=
  containsSubList m.toList p.toList

/-- `handleSubmit` of the reset password page: confirmation check, strength
check, token presence check, then `changePassword(password, true)`; on
failure the message distinguishes expired/invalid-token errors from other
errors by substring match on the error message. -/
def handleSubmit (password confirmPassword : String) (passwordIsValid : Bool)
    (accessToken : Option String) (env : CPEnv) : SubmitOutcome :=
  if password ≠ confirmPassword then
    { message := some "Passwords do not match.", isSuccess := false, mutations := [] }
  else if passwordIsValid = false then
    { message := some "Password does not meet strength requirements.",
      isSuccess := false, mutations := [] }
  else
    match accessToken with
    | none =>
      { message := some "Invalid reset link. Please request a new password reset email.",
        isSuccess := false, mutations := [] }
    | some _ =>
      match changePassword env true with
      | (.ok _, muts) =>
        { message := some "Your password has been successfully reset. Redirecting to login page...",
          isSuccess := true, mutations := muts }
      | (.error m, muts) =>
        if containsSub m "expired" || containsSub m "invalid" then
          { message := some "This reset link has expired or is invalid. Please request a new password reset email.",
            isSuccess := false, mutations := muts }
        else
          { message := some m, isSuccess := false, mutations := muts }

/-- Claim C4 counterexample: a redemption attempt that sets the credential
but fails to clear the flag reports failure with the credential already
mutated — a partial mutation on a redemption failure. -/
theorem reset_failure_partial_mutation :
    (handleSubmit "Passw0rd9" "Passw0rd9" true (some "tok")
        ⟨Except.ok (), Except.error "row update failed", true⟩).isSuccess = false ∧
    (handleSubmit "Passw0rd9" "Passw0rd9" true (some "tok")
        ⟨Except.ok (), Except.error "row update failed", true⟩).mutations =
      [Mutation.credentialSet] := by
  exact ⟨by decide, by decide⟩

/-- Claim C4 (amended): when the provider rejects the credential update
with an invalid-or-expired-token error, no stored mutation happens and the
page reports the distinct expired-or-invalid message. -/
theorem reset_invalid_token_no_mutation (pw tok m : String) (env : CPEnv)
    (hset : env.setCredentialRes = Except.error m)
    (hm : containsSub m "expired" = true ∨ containsSub m "invalid" = true) :
    handleSubmit pw pw true (some tok) env =
      { message := some "This reset link has expired or is invalid. Please request a new password reset email.",
        isSuccess := false, mutations := [] } := by
  unfold handleSubmit
  rw [if_neg (by simp)]
  simp only [Bool.true_eq_false, if_false, ite_false]
  unfold changePassword
  rw [hset]
  rcases hm with h | h <;> simp [h]

/-- Claim C4 witness: a concrete expired-token rejection leaves stored
state untouched and shows the distinct message. -/
theorem reset_invalid_token_no_mutation_witness :
    containsSub "Token has expired" "expired" = true ∧
    handleSubmit "Passw0rd9" "Passw0rd9" true (some "tok")
        ⟨Except.error "Token has expired", Except.ok (), true⟩ =
      { message := some "This reset link has expired or is invalid. Please request a new password reset email.",
        isSuccess := false, mutations := [] } :=
  ⟨by decide,
   reset_invalid_token_no_mutation "Passw0rd9" "tok" "Token has expired"
     ⟨Except.error "Token has expired", Except.ok (), true⟩ rfl (Or.inl (by decide))⟩

/-!
Credential policy evaluator and temporary-password generator. Their code
(`src/utils/validation`) is not included in the repository snapshot; only
its callers are. Both are therefore modelled from the specification.
-/

/-- Modelled from the spec: `PasswordValidationResult` as declared in the
types module — `valid` flag, summary message, ordered violation list. -/
structure PasswordValidationResult where
  isValid : Bool
  message : String
  errors : List String
deriving DecidableEq, Repr

/-- Modelled from the spec: a fixed list of trivially common passwords the
evaluator rejects. -/
def commonPasswords : List String :=
  ["password", "12345678", "123456789", "qwerty123",
   "letmein1", "welcome1", "password1", "abc12345"]

/-- A symbol-class character: not alphanumeric. -/
def isSymbolChar (c : Char) : Bool :=
  !c.isAlphanum

/-- Modelled from the spec: `validatePasswordStrength` of
`src/utils/validation`, absent from the snapshot. Checks, in the fixed
order of §4.1 — minimum length 8, uppercase, lowercase, digit, symbol,
not a common password — appending one violation per failed rule; `isValid`
is true iff the violation list is empty. -/
def validatePasswordStrength (password : String) : PasswordValidationResult :=
  let cs := password.toList
  let errors :=
    (if password.length < 8 then ["Password must be at least 8 characters long"] else []) ++
    (if cs.any Char.isUpper then [] else ["Password must contain an uppercase letter"]) ++
    (if cs.any Char.isLower then [] else ["Password must contain a lowercase letter"]) ++
    (if cs.any Char.isDigit then [] else ["Password must contain a digit"]) ++
    (if cs.any isSymbolChar then [] else ["Password must contain a symbol"]) ++
    (if password ∈ commonPasswords then ["Password is too common"] else [])
  { isValid := errors.isEmpty,
    message := if errors.isEmpty then "Password is strong"
               else "Password does not meet the requirements",
    errors := errors }

def upperPool : List Char := "ABCDEFGHJKMNPQRSTUVWXYZ".toList

def lowerPool : List Char := "abcdefghjkmnpqrstuvwxyz".toList

def digitPool : List Char := "23456789".toList

def symbolPool : List Char := ['!', '@', '#', '$', '%', '&', '*']

def allPool : List Char := upperPool ++ lowerPool ++ digitPool ++ symbolPool

/-- Draw the character of `pool` selected by the random draw `n`. -/
def pick (pool : List Char) (hp : 0 < pool.length) (n : Nat) : Char :=
  pool.get ⟨n % pool.length, Nat.mod_lt n hp⟩

/-- Modelled from the spec: `generateTemporaryPassword` of
`src/utils/validation`, absent from the snapshot. Builds a 12-character
password from a stream `r` of random draws: one character from each
required class, then eight from the combined pool. -/
def generateTemporaryPassword (r : Nat → Nat) : String :=
  String.mk [pick upperPool (by decide) (r 0),
             pick lowerPool (by decide) (r 1),
             pick digitPool (by decide) (r 2),
             pick symbolPool (by decide) (r 3),
             pick allPool (by decide) (r 4),
             pick allPool (by decide) (r 5),
             pick allPool (by decide) (r 6),
             pick allPool (by decide) (r 7),
             pick allPool (by decide) (r 8),
             pick allPool (by decide) (r 9),
             pick allPool (by decide) (r 10),
             pick allPool (by decide) (r 11)]

theorem pick_mem (pool : List Char) (hp : 0 < pool.length) (n : Nat) :
    pick pool hp n ∈ pool :=
  List.get_mem pool _ _

theorem pick_upper_isUpper (hp : 0 < upperPool.length) (n : Nat) :
    (pick upperPool hp n).isUpper = true := by
  have hmem := pick_mem upperPool hp n
  have hall : ∀ c ∈ upperPool, c.isUpper = true := by decide
  exact hall _ hmem

theorem pick_lower_isLower (hp : 0 < lowerPool.length) (n : Nat) :
    (pick lowerPool hp n).isLower = true := by
  have hmem := pick_mem lowerPool hp n
  have hall : ∀ c ∈ lowerPool, c.isLower = true := by decide
  exact hall _ hmem

theorem pick_digit_isDigit (hp : 0 < digitPool.length) (n : Nat) :
    (pick digitPool hp n).isDigit = true := by
  have hmem := pick_mem digitPool hp n
  have hall : ∀ c ∈ digitPool, c.isDigit = true := by decide
  exact hall _ hmem

theorem pick_symbol_isSymbol (hp : 0 < symbolPool.length) (n : Nat) :
    isSymbolChar (pick symbolPool hp n) = true := by
  have hmem := pick_mem symbolPool hp n
  have hall : ∀ c ∈ symbolPool, isSymbolChar c = true := by decide
  exact hall _ hmem

theorem generated_length (r : Nat → Nat) :
    (generateTemporaryPassword r).length = 12 := rfl

theorem generated_not_common (r : Nat → Nat) :
    generateTemporaryPassword r ∉ commonPasswords := by
  intro hmem
  have hlen : (generateTemporaryPassword r).length = 12 := generated_length r
  simp only [commonPasswords, List.mem_cons, List.not_mem_nil, or_false] at hmem
  rcases hmem with h | h | h | h | h | h | h | h <;>
    (rw [h] at hlen; exact absurd hlen (by decide))

/-- Claim C8: every output of the temporary-password generator passes the
password-strength evaluator with an empty violation list. -/
theorem generated_password_always_valid (r : Nat → Nat) :
    (validatePasswordStrength (generateTemporaryPassword r)).isValid = true ∧
    (validatePasswordStrength (generateTemporaryPassword r)).errors = [] := by
  have hlen : (generateTemporaryPassword r).length = 12 := generated_length r
  have hlist : (generateTemporaryPassword r).toList =
      [pick upperPool (by decide) (r 0), pick lowerPool (by decide) (r 1),
       pick digitPool (by decide) (r 2), pick symbolPool (by decide) (r 3),
       pick allPool (by decide) (r 4), pick allPool (by decide) (r 5),
       pick allPool (by decide) (r 6), pick allPool (by decide) (r 7),
       pick allPool (by decide) (r 8), pick allPool (by decide) (r 9),
       pick allPool (by decide) (r 10), pick allPool (by decide) (r 11)] := rfl
  have hdata : (generateTemporaryPassword r).data =
      [pick upperPool (by decide) (r 0), pick lowerPool (by decide) (r 1),
       pick digitPool (by decide) (r 2), pick symbolPool (by decide) (r 3),
       pick allPool (by decide) (r 4), pick allPool (by decide) (r 5),
       pick allPool (by decide) (r 6), pick allPool (by decide) (r 7),
       pick allPool (by decide) (r 8), pick allPool (by decide) (r 9),
       pick allPool (by decide) (r 10), pick allPool (by decide) (r 11)] := hlist
  have eupper : ∃ x ∈ (generateTemporaryPassword r).data, x.isUpper = true := by
    rw [hdata]
    refine ⟨pick upperPool (by decide) (r 0), ?_, pick_upper_isUpper _ _⟩
    simp
  have elower : ∃ x ∈ (generateTemporaryPassword r).data, x.isLower = true := by
    rw [hdata]
    refine ⟨pick lowerPool (by decide) (r 1), ?_, pick_lower_isLower _ _⟩
    simp
  have edigit : ∃ x ∈ (generateTemporaryPassword r).data, x.isDigit = true := by
    rw [hdata]
    refine ⟨pick digitPool (by decide) (r 2), ?_, pick_digit_isDigit _ _⟩
    simp
  have esymbol : ∃ x ∈ (generateTemporaryPassword r).data, isSymbolChar x = true := by
    rw [hdata]
    refine ⟨pick symbolPool (by decide) (r 3), ?_, pick_symbol_isSymbol _ _⟩
    simp
  have hcommon : generateTemporaryPassword r ∉ commonPasswords :=
    generated_not_common r
  refine ⟨?_, ?_⟩ <;>
    simp [validatePasswordStrength, hlen, eupper, elower, edigit, esymbol, hcommon]
